import Mathlib

/-!
Verification of the River 3 envelope/payload codec
(`custom_components/ecoflow_cloud/devices/internal/river3.py`).

Bytes are modelled as `List Nat` (each element `< 256` where it matters);
Python `int` is modelled as `Int` (or `Nat` where the source value is
manifestly non-negative); Python dicts are modelled as association lists
`List (String × PyVal)` (the dicts handled here never carry duplicate keys).
The protobuf-generated module `ef_river3_pb2` / `ecopacket_pb2` is not part
of the source under verification; where its parsers appear they are
abstracted as inputs (the already-parsed result), and the logic of
`river3.py` around them is translated faithfully.
-/

/-- The `while val > 0x7F` loop of `_encode_varint` (river3.py lines 50-53),
operating on the non-negative value obtained after the sign adjustment:
emits `(val & 0x7F) | 0x80` and shifts right by 7 while `val > 0x7F`, then
emits the final byte `val & 0x7F`. -/
def encodeVarintLoop (val : Nat) : List Nat :=
  if h : val > 0x7F then ((val &&& 0x7F) ||| 0x80) :: encodeVarintLoop (val >>> 7)
  else [val &&& 0x7F]
termination_by val
decreasing_by
  simp only [Nat.shiftRight_eq_div_pow]
  exact Nat.div_lt_self (by omega) (by norm_num)

/-- `_encode_varint` (river3.py lines 45-54): a negative input is first
reinterpreted as unsigned 32-bit via `val & 0xFFFFFFFF` (Python's `&` on a
negative int is arithmetic mod `2^32`), then the 7-bit groups are emitted
lowest-order first. -/
def _encode_varint (val : Int) : List Nat :=
  let v : Nat := if val < 0 then (val % (2 ^ 32 : Int)).toNat else val.toNat
  encodeVarintLoop v

/-- Base-128 varint decoder, as described by the spec (§4.1): accumulate
7 bits per byte in little-endian group order (lowest-order group first),
stopping after the first byte whose continuation bit `0x80` is clear.
Returns the decoded value together with the number of bytes consumed. -/
def decodeVarint : List Nat → Nat × Nat
  | [] => (0, 0)
  | b :: rest =>
    if b &&& 0x80 = 0 then (b &&& 0x7F, 1)
    else ((b &&& 0x7F) + (decodeVarint rest).1 * 128, (decodeVarint rest).2 + 1)

theorem and_127_eq_mod (x : Nat) : x &&& 0x7F = x % 128 := by
  have h := Nat.and_pow_two_sub_one_eq_mod x 7
  norm_num at h
  exact h

theorem low_byte_no_continuation : ∀ x : Fin 128, x.val &&& 0x80 = 0 := by decide

theorem low_byte_payload : ∀ x : Fin 128, x.val &&& 0x7F = x.val := by decide

theorem cont_byte_has_continuation : ∀ x : Fin 128, ¬((x.val ||| 0x80) &&& 0x80 = 0) := by decide

theorem cont_byte_payload : ∀ x : Fin 128, (x.val ||| 0x80) &&& 0x7F = x.val := by decide

theorem decode_encodeVarintLoop (v : Nat) :
    decodeVarint (encodeVarintLoop v) = (v, (encodeVarintLoop v).length) := by
  induction v using Nat.strong_induction_on with
  | _ v ih =>
    rw [encodeVarintLoop]
    by_cases h : v > 0x7F
    · rw [dif_pos h]
      have hlt : v &&& 0x7F < 128 := by
        rw [and_127_eq_mod]; exact Nat.mod_lt _ (by norm_num)
      have hrec := ih (v >>> 7) (by
        rw [Nat.shiftRight_eq_div_pow]
        exact Nat.div_lt_self (by omega) (by norm_num))
      simp only [decodeVarint, List.length_cons]
      rw [if_neg (cont_byte_has_continuation ⟨v &&& 0x7F, hlt⟩), hrec]
      simp only [cont_byte_payload ⟨v &&& 0x7F, hlt⟩]
      rw [and_127_eq_mod, Nat.shiftRight_eq_div_pow]
      norm_num
      omega
    · rw [dif_neg h]
      have hlt : v < 128 := by omega
      have hv : v &&& 0x7F = v := by rw [and_127_eq_mod, Nat.mod_eq_of_lt hlt]
      simp only [decodeVarint, List.length_cons, List.length_nil, hv]
      rw [if_pos (low_byte_no_continuation ⟨v, hlt⟩)]

/-- C1: for every non-negative `v < 2^32`, the bytes of `_encode_varint v`
form a valid base-128 varint: decoding them (7 bits per byte, lowest-order
group first, continuation bit `0x80`) yields `v` back and consumes exactly
`(_encode_varint v).length` bytes. -/
theorem varint_roundtrip (v : Nat) (h : v < 2 ^ 32) :
    decodeVarint (_encode_varint (v : Int)) = (v, (_encode_varint (v : Int)).length) := by
  have hnn : ¬((v : Int) < 0) := by exact_mod_cast Int.not_lt.mpr (Int.ofNat_nonneg v)
  simp only [_encode_varint, if_neg hnn, Int.toNat_ofNat]
  exact decode_encodeVarintLoop v

theorem varint_roundtrip_witness :
    (300 : Nat) < 2 ^ 32 ∧
      decodeVarint (_encode_varint ((300 : Nat) : Int)) =
        (300, (_encode_varint ((300 : Nat) : Int)).length) :=
  ⟨by norm_num, varint_roundtrip 300 (by norm_num)⟩

/-- One sub-message of the outbound `SendHeaderMsg` envelope, with the
fields assigned by the command builders in river3.py (the protobuf class
itself comes from the generated `ecopacket_pb2`, not under verification;
this records exactly the assigned fields). -/
structure SetMessage where
  src : Nat
  dest : Nat
  d_src : Nat
  d_dest : Nat
  cmd_func : Nat
  cmd_id : Nat
  need_ack : Nat
  seq : Nat
  product_id : Nat
  version : Nat
  payload_ver : Nat
  device_sn : String
  data_len : Nat
  pdata : List Nat
deriving Repr, DecidableEq

/-- The outbound envelope: `packet.msg.add()` appends sub-messages to the
repeated `msg` field. -/
structure SendHeaderMsg where
  msg : List SetMessage
deriving Repr, DecidableEq

/-- The `field_config` registry of `_create_river3_proto_command`
(river3.py lines 71-88): settable field name to
`(field_number, default_data_len)`. -/
def field_config (field_name : String) : Option (Nat × Nat) :=
  match field_name with
  | "en_beep" => some (9, 2)
  | "ac_standby_time" => some (10, 3)
  | "dc_standby_time" => some (11, 3)
  | "screen_off_time" => some (12, 3)
  | "dev_standby_time" => some (13, 3)
  | "lcd_light" => some (14, 2)
  | "cfg_dc12v_out_open" => some (18, 3)
  | "xboost_en" => some (25, 3)
  | "cms_max_chg_soc" => some (33, 3)
  | "cms_min_dsg_soc" => some (34, 3)
  | "plug_in_info_ac_in_chg_pow_max" => some (54, 4)
  | "cfg_ac_out_open" => some (76, 3)
  | "plug_in_info_pv_dc_amp_max" => some (87, 3)
  | "pv_chg_type" => some (90, 3)
  | "output_power_off_memory" => some (141, 3)
  | _ => none

/-- `_create_river3_proto_command` (river3.py lines 57-141).  The fresh
sequence number `int(time.time() * 1000) % 2147483647` is made explicit by
passing the current time in milliseconds (`now_ms`); an unknown field name
logs an error and returns `None` (here `none`). -/
def _create_river3_proto_command (field_name : String) (value : Int) (device_sn : String)
    (data_len : Option Nat) (now_ms : Nat) : Option SendHeaderMsg :=
  match field_config field_name with
  | none => none
  | some (field_num, default_data_len) =>
    let val : Int := value
    let dl : Nat :=
      match data_len with
      | some d => d
      | none =>
        if field_name = "plug_in_info_ac_in_chg_pow_max" then
          if val > 128 then 4 else 3
        else if field_name = "ac_standby_time" ∨ field_name = "dev_standby_time" ∨
            field_name = "screen_off_time" then
          if val > 128 then 3 else 2
        else default_data_len
    let field_key : Nat := (field_num <<< 3) ||| 0
    some { msg := [{
      src := 32
      dest := 2
      d_src := 1
      d_dest := 1
      cmd_func := 254
      cmd_id := 17
      need_ack := 1
      seq := now_ms % 2147483647
      product_id := 1
      version := 19
      payload_ver := 1
      device_sn := device_sn
      data_len := dl
      pdata := _encode_varint (field_key : Int) ++ _encode_varint val }] }

/-- `_create_river3_energy_backup_command` (river3.py lines 144-214):
nested `cfgEnergyBackup` message under outer field 43 (wire type 2); when
enabling (`energy_backup_en == 1`) the inner bytes carry field 1 (value 1)
then field 2 (the SOC threshold) and `data_len = 7`; otherwise only
field 2, with `data_len = 5`. -/
def _create_river3_energy_backup_command (energy_backup_en : Option Int)
    (energy_backup_start_soc : Int) (device_sn : String) (now_ms : Nat) : SendHeaderMsg :=
  let enabled : Bool :=
    match energy_backup_en with
    | some e => e == 1
    | none => false
  let inner_pdata : List Nat :=
    if enabled then
      _encode_varint (((1 <<< 3) ||| 0 : Nat) : Int) ++ _encode_varint 1 ++
        _encode_varint (((2 <<< 3) ||| 0 : Nat) : Int) ++ _encode_varint energy_backup_start_soc
    else
      _encode_varint (((2 <<< 3) ||| 0 : Nat) : Int) ++ _encode_varint energy_backup_start_soc
  { msg := [{
      src := 32
      dest := 2
      d_src := 1
      d_dest := 1
      cmd_func := 254
      cmd_id := 17
      need_ack := 1
      seq := now_ms % 2147483647
      product_id := 1
      version := 19
      payload_ver := 1
      device_sn := device_sn
      data_len := if enabled then 7 else 5
      pdata := _encode_varint (((43 <<< 3) ||| 2 : Nat) : Int) ++
        _encode_varint ((inner_pdata.length : Nat) : Int) ++ inner_pdata }] }

/-- C2: building the set command for `"en_beep"` with value 1, any serial
and `data_len = 2` yields an envelope with exactly one sub-message whose
routing constants are `src=32, dest=2, cmd_func=254, cmd_id=17,
need_ack=1, product_id=1, version=19, payload_ver=1`, whose declared
`data_len` is 2, whose serial is the given one, and whose payload is
`_encode_varint ((9 <<< 3) ||| 0) ++ _encode_varint 1`. -/
theorem en_beep_set_command (serial : String) (now_ms : Nat) :
    _create_river3_proto_command "en_beep" 1 serial (some 2) now_ms =
      some { msg := [{
        src := 32
        dest := 2
        d_src := 1
        d_dest := 1
        cmd_func := 254
        cmd_id := 17
        need_ack := 1
        seq := now_ms % 2147483647
        product_id := 1
        version := 19
        payload_ver := 1
        device_sn := serial
        data_len := 2
        pdata := _encode_varint (((9 <<< 3) ||| 0 : Nat) : Int) ++ _encode_varint 1 }] } := rfl

/-- C3: for every threshold `soc`, the energy-backup command with
`enable = 1` has payload
`_encode_varint ((43 <<< 3) ||| 2) ++ _encode_varint inner.length ++ inner`
where `inner` encodes field 1 with value 1 then field 2 with value `soc`,
and declared `data_len = 7`; with enable absent the same outer wrapping
holds with `inner` encoding only field 2 with value `soc`, and
`data_len = 5`. -/
theorem energy_backup_payload (soc : Int) (sn : String) (now_ms : Nat) :
    ((_create_river3_energy_backup_command (some 1) soc sn now_ms).msg.map
        (fun m => (m.pdata, m.data_len)) =
      [(let inner := _encode_varint (((1 <<< 3) ||| 0 : Nat) : Int) ++ _encode_varint 1 ++
          _encode_varint (((2 <<< 3) ||| 0 : Nat) : Int) ++ _encode_varint soc
        (_encode_varint (((43 <<< 3) ||| 2 : Nat) : Int) ++
          _encode_varint ((inner.length : Nat) : Int) ++ inner, 7))]) ∧
    ((_create_river3_energy_backup_command none soc sn now_ms).msg.map
        (fun m => (m.pdata, m.data_len)) =
      [(let inner := _encode_varint (((2 <<< 3) ||| 0 : Nat) : Int) ++ _encode_varint soc
        (_encode_varint (((43 <<< 3) ||| 2 : Nat) : Int) ++
          _encode_varint ((inner.length : Nat) : Int) ++ inner, 5))]) :=
  ⟨rfl, rfl⟩

/-- C4: when `data_len` is not supplied, the declared length for
`plug_in_info_ac_in_chg_pow_max` is 4 when the value exceeds 128 and 3
otherwise; for `ac_standby_time`, `dev_standby_time` and
`screen_off_time` it is 3 when the value exceeds 128 and 2 otherwise; and
for every other field in the registry it is that field's registry default
length. -/
theorem data_len_default_rule (field_name : String) (value : Int) (device_sn : String)
    (now_ms : Nat) (field_num default_data_len : Nat)
    (h : field_config field_name = some (field_num, default_data_len)) :
    (_create_river3_proto_command field_name value device_sn none now_ms).map
        (fun p => p.msg.map SetMessage.data_len) =
      some [if field_name = "plug_in_info_ac_in_chg_pow_max" then
              (if value > 128 then 4 else 3)
            else if field_name = "ac_standby_time" ∨ field_name = "dev_standby_time" ∨
                field_name = "screen_off_time" then
              (if value > 128 then 3 else 2)
            else default_data_len] := by
  simp [_create_river3_proto_command, h]

theorem data_len_default_rule_witness :
    field_config "lcd_light" = some (14, 2) ∧
      (_create_river3_proto_command "lcd_light" 200 "SN" none 0).map
        (fun p => p.msg.map SetMessage.data_len) = some [2] :=
  ⟨rfl, by
    have h := data_len_default_rule "lcd_light" 200 "SN" 0 14 2 rfl
    rw [h]
    decide⟩

/-- C8: a field name absent from the registry yields no command at all:
`_create_river3_proto_command` returns `None` (after logging a
configuration error), rather than emitting an empty or malformed
envelope. -/
theorem unknown_field_no_command (field_name : String) (value : Int) (device_sn : String)
    (data_len : Option Nat) (now_ms : Nat) (h : field_config field_name = none) :
    _create_river3_proto_command field_name value device_sn data_len now_ms = none := by
  simp [_create_river3_proto_command, h]

theorem unknown_field_no_command_witness :
    field_config "not_a_river3_field" = none ∧
      _create_river3_proto_command "not_a_river3_field" 1 "SN123" none 0 = none :=
  ⟨rfl, unknown_field_no_command "not_a_river3_field" 1 "SN123" none 0 rfl⟩

/-- One parsed header (sub-message) of an inbound `River3HeaderMessage`
envelope, with the fields that `_decode_header_message` reads via
`getattr` (plus `device_sn` and the opaque payload `pdata`).  The protobuf
parse producing it is external (generated `ef_river3_pb2`). -/
structure RawHeader where
  src : Nat
  dest : Nat
  d_src : Nat
  d_dest : Nat
  enc_type : Nat
  check_type : Nat
  cmd_func : Nat
  cmd_id : Nat
  data_len : Nat
  need_ack : Nat
  seq : Nat
  product_id : Nat
  version : Nat
  payload_ver : Nat
  device_sn : String
  pdata : List Nat

/-- The `header_info` dict built by `_decode_header_message`
(river3.py lines 619-635): the scalar header fields plus the header
object itself under `header_obj`.  Note that `device_sn` is not among the
recorded scalars, exactly as in the source. -/
structure HeaderInfo where
  src : Nat
  dest : Nat
  dSrc : Nat
  dDest : Nat
  encType : Nat
  checkType : Nat
  cmdFunc : Nat
  cmdId : Nat
  dataLen : Nat
  needAck : Nat
  seq : Nat
  productId : Nat
  version : Nat
  payloadVer : Nat
  headerObj : RawHeader

/-- `_xor_decode_pdata` (river3.py lines 670-679): empty payload maps to
empty; otherwise every byte becomes `(byte ^ seq) & 0xFF`. -/
def _xor_decode_pdata (pdata : List Nat) (seq : Nat) : List Nat :=
  if pdata = [] then []
  else pdata.map (fun byte_val => (byte_val ^^^ seq) &&& 0xFF)

/-- `_perform_xor_decode` (river3.py lines 658-668): the payload is XOR
decoded exactly when `enc_type == 1 and src != 32`, else passed through. -/
def _perform_xor_decode (pdata : List Nat) (header_info : HeaderInfo) : List Nat :=
  let enc_type := header_info.encType
  let src := header_info.src
  let seq := header_info.seq
  if enc_type = 1 ∧ src ≠ 32 then _xor_decode_pdata pdata seq
  else pdata

theorem and_255_eq_mod (x : Nat) : x &&& 0xFF = x % 256 := by
  have h := Nat.and_pow_two_sub_one_eq_mod x 8
  norm_num at h
  exact h

theorem xor_decode_eq_map (pdata : List Nat) (seq : Nat) :
    _xor_decode_pdata pdata seq = pdata.map (fun byte_val => (byte_val ^^^ seq) &&& 0xFF) := by
  unfold _xor_decode_pdata
  by_cases h : pdata = []
  · simp [h]
  · simp [h]

theorem xor_byte_low_bits (x seq : Nat) (hx : x < 256) :
    (x ^^^ seq) &&& 0xFF = x ^^^ (seq &&& 0xFF) := by
  rw [Nat.and_xor_distrib_right]
  congr 1
  rw [and_255_eq_mod, Nat.mod_eq_of_lt hx]

theorem xor_byte_involutive (x seq : Nat) (hx : x < 256) :
    (((x ^^^ seq) &&& 0xFF) ^^^ seq) &&& 0xFF = x := by
  have h1 : (x ^^^ seq) &&& 0xFF < 256 := by
    rw [and_255_eq_mod]; exact Nat.mod_lt _ (by norm_num)
  rw [xor_byte_low_bits _ _ h1, xor_byte_low_bits _ _ hx, Nat.xor_assoc,
    Nat.xor_self, Nat.xor_zero]

/-- C5: for every byte sequence (all elements `< 256`, as for Python
`bytes`) and every sequence value, applying `_xor_decode_pdata` twice with
the same `seq` restores the input, and one application XORs every byte
with the low 8 bits of `seq`. -/
theorem xor_decode_involutive (b : List Nat) (seq : Nat) (hb : ∀ x ∈ b, x < 256) :
    _xor_decode_pdata (_xor_decode_pdata b seq) seq = b ∧
      _xor_decode_pdata b seq = b.map (fun x => x ^^^ (seq &&& 0xFF)) := by
  constructor
  · rw [xor_decode_eq_map, xor_decode_eq_map, List.map_map]
    have : ∀ x ∈ b, (((x ^^^ seq) &&& 0xFF) ^^^ seq) &&& 0xFF = x := fun x hx =>
      xor_byte_involutive x seq (hb x hx)
    calc b.map _ = b.map id := List.map_congr_left this
    _ = b := List.map_id b
  · rw [xor_decode_eq_map]
    exact List.map_congr_left fun x hx => xor_byte_low_bits x seq (hb x hx)

theorem xor_decode_involutive_witness :
    (∀ x ∈ [0, 171, 255], x < 256) ∧
      (_xor_decode_pdata (_xor_decode_pdata [0, 171, 255] 9999) 9999 = [0, 171, 255] ∧
        _xor_decode_pdata [0, 171, 255] 9999 =
          ([0, 171, 255] : List Nat).map (fun x => x ^^^ (9999 &&& 0xFF))) :=
  ⟨by decide, xor_decode_involutive [0, 171, 255] 9999 (by decide)⟩

/-- C6: the XOR de-obfuscation step applies the transform keyed by the
header's `seq` exactly when the header's encryption type is 1 and its
source address differs from the controller address 32; in every other
case the payload is returned unchanged. -/
theorem xor_gate (p : List Nat) (h : HeaderInfo) :
    _perform_xor_decode p h =
      if h.encType = 1 ∧ h.src ≠ 32 then _xor_decode_pdata p h.seq else p := rfl

/-- Python scalar / container values as they occur in the decoded dicts
(`_protobuf_to_dict` results): `None`, bool, int, str, nested dict and
list. -/
inductive PyVal where
  | vNone : PyVal
  | vBool : Bool → PyVal
  | vInt : Int → PyVal
  | vStr : String → PyVal
  | vDict : List (String × PyVal) → PyVal
  | vList : List PyVal → PyVal
deriving Repr

/-- A Python dict, modelled as an association list (the decoded dicts of
river3.py never carry duplicate keys). -/
abbrev PyDict := List (String × PyVal)

/-- Python truthiness, as used by `if result.get(...)` style tests. -/
def truthy : PyVal → Bool
  | .vNone => false
  | .vBool b => b
  | .vInt n => n != 0
  | .vStr s => !s.isEmpty
  | .vDict d => !d.isEmpty
  | .vList l => !l.isEmpty

/-- `d.get(key, dflt)` on a dict. -/
def dictGet (d : PyDict) (key : String) (dflt : PyVal) : PyVal :=
  match d.find? (fun kv => kv.1 == key) with
  | some kv => kv.2
  | none => dflt

/-- `key in d` on a dict. -/
def hasKey (d : PyDict) (key : String) : Bool :=
  d.any (fun kv => kv.1 == key)

/-- `d[key] = v` on a dict: overwrite in place if present, else append
(Python dicts preserve insertion order). -/
def dictSet (d : PyDict) (key : String) (v : PyVal) : PyDict :=
  if hasKey d key then d.map (fun kv => if kv.1 == key then (kv.1, v) else kv)
  else d ++ [(key, v)]

/-- `item.get(key, dflt)` on an arbitrary value: only dicts have `.get`;
anything else raises `AttributeError`, modelled as `none`. -/
def itemGet (item : PyVal) (key : String) (dflt : PyVal) : Option PyVal :=
  match item with
  | .vDict d => some (dictGet d key dflt)
  | _ => none

mutual

/-- Value part of `_flatten_dict` (river3.py lines 786-795): a nested dict
is flattened recursively under the extended key, anything else is a leaf. -/
def flattenVal (key : String) : PyVal → PyDict
  | .vDict d => flattenDict d key
  | v => [(key, v)]

/-- `_flatten_dict` (river3.py lines 786-795): flattens nested dicts with
an underscore separator, prefixing keys with `parent_key` when non-empty. -/
def flattenDict : PyDict → String → PyDict
  | [], _ => []
  | (k, v) :: rest, parent_key =>
    let new_key := if parent_key = "" then k else parent_key ++ "_" ++ k
    flattenVal new_key v ++ flattenDict rest parent_key

end

/-- `BMS_HEARTBEAT_COMMANDS` (river3.py lines 219-236): the
`(cmdFunc, cmdId)` pairs mapped to `BMSHeartBeatReport`. -/
def BMS_HEARTBEAT_COMMANDS : List (Nat × Nat) :=
  [(3, 1), (3, 2), (3, 30), (3, 50),
   (32, 1), (32, 3), (32, 50), (32, 51), (32, 52),
   (254, 24), (254, 25), (254, 26), (254, 27), (254, 28), (254, 29), (254, 30)]

/-- `_is_bms_heartbeat` (river3.py lines 782-784). -/
def _is_bms_heartbeat (cmd_func cmd_id : Nat) : Bool :=
  BMS_HEARTBEAT_COMMANDS.contains (cmd_func, cmd_id)

/-- The protobuf parses that `_decode_message_by_type` /
`_prepare_set_reply_data` perform on a payload, abstracted (the generated
`ef_river3_pb2` classes are not under src/): each field is `some d` when
`ParseFromString` followed by `_protobuf_to_dict` yields the dict `d` for
the corresponding message class, and `none` when parsing raises.
`enumName` abstracts `pb2.River3StatisticsObject.Name` (`none` =
`ValueError`). -/
structure ParseResults where
  display : Option PyDict
  runtime : Option PyDict
  setCmd : Option PyDict
  setReply : Option PyDict
  cms : Option PyDict
  bms : Option PyDict
  enumName : Int → Option String

/-- Whether a value is Python `None`. -/
def PyVal.isNone : PyVal → Bool
  | .vNone => true
  | _ => false

/-- The `for item in list_info` loop of `_extract_statistics`
(river3.py lines 824-844), threading the mutated `data` dict through the
iterations.  A non-dict item raises `AttributeError` at `item.get`
(modelled as `none`, caught by the caller's `except`). -/
def statLoop (enumName : Int → Option String) : List PyVal → PyDict → Option PyDict
  | [], data => some data
  | item :: rest, data =>
    match item with
    | .vDict d =>
      let a := dictGet d "statistics_object" .vNone
      let stat_obj := if truthy a then a else dictGet d "statisticsObject" .vNone
      let c := dictGet d "statistics_content" .vNone
      let stat_content := if truthy c then c else dictGet d "statisticsContent" .vNone
      let data' :=
        if !stat_obj.isNone && !stat_content.isNone then
          match stat_obj with
          | .vStr s =>
            if s.startsWith "STATISTICS_OBJECT_" then
              dictSet data (s.replace "STATISTICS_OBJECT_" "").toLower stat_content
            else data
          | .vInt n =>
            match enumName n with
            | some enum_name =>
              if enum_name.startsWith "STATISTICS_OBJECT_" then
                dictSet data (enum_name.replace "STATISTICS_OBJECT_" "").toLower stat_content
              else data
            | none => data
          | .vBool b =>
            match enumName (if b then 1 else 0) with
            | some enum_name =>
              if enum_name.startsWith "STATISTICS_OBJECT_" then
                dictSet data (enum_name.replace "STATISTICS_OBJECT_" "").toLower stat_content
              else data
            | none => data
          | _ => data
        else data
      statLoop enumName rest data'
    | _ => none

/-- `_extract_statistics` (river3.py lines 810-846): expands the
`display_statistics_sum.list_info` entries into synthetic top-level keys.
`none` models an exception escaping to the caller (non-dict
`display_statistics_sum`, or iteration over a truthy non-list). -/
def _extract_statistics (enumName : Int → Option String) (data : PyDict) : Option PyDict :=
  match itemGet (dictGet data "display_statistics_sum" (.vDict [])) "list_info" (.vList []) with
  | none => none
  | some list_info =>
    if truthy list_info = false then some data
    else
      match list_info with
      | .vList items => statLoop enumName items data
      | _ => none

/-- The `cmd_func == 254 and cmd_id == 18` branch of
`_decode_message_by_type` (river3.py lines 726-732), with the parse
abstracted: `result` is the dict obtained from `River3SetReply` via
`_protobuf_to_dict`; it is kept only when `config_ok` is truthy. -/
def set_reply_branch (result : PyDict) : PyDict :=
  if truthy (dictGet result "config_ok" (.vBool false)) then result else []

/-- `_decode_message_by_type` (river3.py lines 681-780): dispatch over
`(cmdFunc, cmdId)`.  Parse failures and exceptions in a branch yield `{}`
(inner `except` clauses, or the outer one for the 254/21 and 254/22
branches).  The final fallback (lines 758-776) retries the payload as
`BMSHeartBeatReport` and keeps the result when it carries `cycles` or
accumulated-energy keys. -/
def _decode_message_by_type (pdata : List Nat) (header_info : HeaderInfo)
    (parses : List Nat → ParseResults) : PyDict :=
  let cmd_func := header_info.cmdFunc
  let cmd_id := header_info.cmdId
  let pr := parses pdata
  if cmd_func = 254 ∧ cmd_id = 21 then
    match pr.display with
    | some msg => (_extract_statistics pr.enumName msg).getD []
    | none => []
  else if cmd_func = 254 ∧ cmd_id = 22 then pr.runtime.getD []
  else if cmd_func = 254 ∧ cmd_id = 17 then pr.setCmd.getD []
  else if cmd_func = 254 ∧ cmd_id = 18 then
    match pr.setReply with
    | some result => set_reply_branch result
    | none => []
  else if cmd_func = 32 ∧ cmd_id = 2 then pr.cms.getD []
  else if _is_bms_heartbeat cmd_func cmd_id then pr.bms.getD []
  else
    match pr.bms with
    | some result =>
      if hasKey result "cycles" || hasKey result "accu_chg_energy" ||
          hasKey result "accu_dsg_energy" then result
      else []
    | none => []

/-- `_decode_header_message` (river3.py lines 589-642), with the
`River3HeaderMessage` parse abstracted: `parsed` is `none` when
`ParseFromString` raises, otherwise the parsed repeated `header` field.
An empty header list yields `None`; otherwise the first header is turned
into the `header_info` dict. -/
def _decode_header_message (parsed : Option (List RawHeader)) : Option HeaderInfo :=
  match parsed with
  | none => none
  | some [] => none
  | some (header :: _) =>
    some { src := header.src
           dest := header.dest
           dSrc := header.d_src
           dDest := header.d_dest
           encType := header.enc_type
           checkType := header.check_type
           cmdFunc := header.cmd_func
           cmdId := header.cmd_id
           dataLen := header.data_len
           needAck := header.need_ack
           seq := header.seq
           productId := header.product_id
           version := header.version
           payloadVer := header.payload_ver
           headerObj := header }

/-- `_extract_payload_data` (river3.py lines 644-656): an empty `pdata`
yields `None`. -/
def _extract_payload_data (header_obj : RawHeader) : Option (List Nat) :=
  if header_obj.pdata = [] then none else some header_obj.pdata

/-- The value `_prepare_data` returns: the JSON fallback
(`super()._prepare_data`, taken when the header decode fails), the empty
dict, or the `params` / `all_fields` pair. -/
inductive PrepareResult where
  | jsonFallback : PrepareResult
  | empty : PrepareResult
  | decoded : PyDict → PyDict → PrepareResult

/-- `_prepare_data` (river3.py lines 533-587).  `expected_sn` is the
device's own serial (`self.device_data.sn`), available to the method
through `self`; `parsed` abstracts the `River3HeaderMessage` parse of the
raw bytes and `parses` the protobuf parses of a payload (see
`ParseResults`). -/
def _prepare_data (parsed : Option (List RawHeader)) (expected_sn : String)
    (parses : List Nat → ParseResults) : PrepareResult :=
  match _decode_header_message parsed with
  | none => .jsonFallback
  | some header_info =>
    match _extract_payload_data header_info.headerObj with
    | none => .empty
    | some pdata =>
      let decoded_pdata := _perform_xor_decode pdata header_info
      let decoded_data := _decode_message_by_type decoded_pdata header_info parses
      if decoded_data.isEmpty then .empty
      else .decoded (flattenDict decoded_data "") decoded_data

/-- `_prepare_set_reply_data` (river3.py lines 890-928), used for both the
set-reply and the get-reply topics.  `parsed` abstracts the
`River3HeaderMessage` parse, `parses` the `River3SetReply` parse of the
(possibly XOR-decoded) payload, and `json_fallback` the
`_quiet_json_parse(raw_data)` result reached on every failure path.  Note
that in the source the `config_ok` check at line 919 only selects a debug
log message: the flattened result is returned either way. -/
def _prepare_set_reply_data (parsed : Option (List RawHeader))
    (parses : List Nat → ParseResults) (json_fallback : PyDict) : PyDict :=
  match parsed with
  | some (header :: _) =>
    if header.pdata ≠ [] then
      let pdata :=
        if header.enc_type = 1 ∧ header.src ≠ 32 then _xor_decode_pdata header.pdata header.seq
        else header.pdata
      match (parses pdata).setReply with
      | some result => [("params", .vDict (flattenDict result ""))]
      | none => json_fallback
    else json_fallback
  | _ => json_fallback

/-- A `River3SetReply` decode result carrying a settings field but no
`config_ok` key (as `MessageToDict` omits unset/default fields). -/
def sampleReplyResult : PyDict := [("cfg_ac_out_open", PyVal.vInt 1)]

/-- Parse results where only the `River3SetReply` parse succeeds,
yielding `sampleReplyResult`. -/
def sampleReplyParses : List Nat → ParseResults :=
  fun _ => { display := none, runtime := none, setCmd := none,
             setReply := some sampleReplyResult, cms := none, bms := none,
             enumName := fun _ => none }

/-- A set-reply header: `cmd_func = 254`, `cmd_id = 18`, unencrypted,
with a non-empty payload. -/
def sampleReplyHeader : RawHeader :=
  { src := 2, dest := 32, d_src := 1, d_dest := 1, enc_type := 0, check_type := 0,
    cmd_func := 254, cmd_id := 18, data_len := 2, need_ack := 0, seq := 1000,
    product_id := 1, version := 19, payload_ver := 1, device_sn := "SN123",
    pdata := [1] }

/-- The `header_info` dict for `sampleReplyHeader`. -/
def sampleReplyHeaderInfo : HeaderInfo :=
  { src := 2, dest := 32, dSrc := 1, dDest := 1, encType := 0, checkType := 0,
    cmdFunc := 254, cmdId := 18, dataLen := 2, needAck := 0, seq := 1000,
    productId := 1, version := 19, payloadVer := 1, headerObj := sampleReplyHeader }

/-- C7 (amended): when the set-reply `config_ok` field is false or absent,
the `(254, 18)` branch of `_decode_message_by_type` contributes nothing;
but on the set-reply topic path (`_prepare_set_reply_data`) the decoded
mapping is returned as `params` regardless of `config_ok` — a non-empty
contribution. -/
theorem set_reply_config_ok_gate (pdata : List Nat) (hinfo : HeaderInfo)
    (parses : List Nat → ParseResults) (result : PyDict) (hdr : RawHeader) (fb : PyDict)
    (hfunc : hinfo.cmdFunc = 254) (hid : hinfo.cmdId = 18)
    (hparse : (parses pdata).setReply = some result)
    (hok : truthy (dictGet result "config_ok" (.vBool false)) = false)
    (hpd : hdr.pdata ≠ []) (hxor : ¬(hdr.enc_type = 1 ∧ hdr.src ≠ 32))
    (hparse2 : (parses hdr.pdata).setReply = some result) :
    _decode_message_by_type pdata hinfo parses = [] ∧
      (_prepare_set_reply_data (some [hdr]) parses fb =
          [("params", .vDict (flattenDict result ""))] ∧
        _prepare_set_reply_data (some [hdr]) parses fb ≠ []) := by
  refine ⟨?_, ?_, ?_⟩
  · simp [_decode_message_by_type, hfunc, hid, hparse, set_reply_branch, hok]
  · simp [_prepare_set_reply_data, hpd, hxor, hparse2]
  · simp [_prepare_set_reply_data, hpd, hxor, hparse2]

theorem set_reply_config_ok_gate_witness :
    ((sampleReplyParses [1]).setReply = some sampleReplyResult ∧
      truthy (dictGet sampleReplyResult "config_ok" (.vBool false)) = false ∧
      sampleReplyHeader.pdata ≠ []) ∧
    (_decode_message_by_type [1] sampleReplyHeaderInfo sampleReplyParses = [] ∧
      (_prepare_set_reply_data (some [sampleReplyHeader]) sampleReplyParses [] =
          [("params", .vDict (flattenDict sampleReplyResult ""))] ∧
        _prepare_set_reply_data (some [sampleReplyHeader]) sampleReplyParses [] ≠ [])) :=
  ⟨⟨rfl, rfl, by simp [sampleReplyHeader]⟩,
    set_reply_config_ok_gate [1] sampleReplyHeaderInfo sampleReplyParses
      sampleReplyResult sampleReplyHeader [] rfl rfl rfl rfl
      (by simp [sampleReplyHeader]) (by simp [sampleReplyHeader]) rfl⟩

/-- C7 counterexample: a set reply without a truthy `config_ok` is not
discarded on the set-reply topic path — `_prepare_set_reply_data` still
returns its flattened fields under `params`, so the claim's "holds on
every decode path that handles set replies, including the set-reply topic
path" fails on this input. -/
theorem set_reply_topic_counterexample :
    truthy (dictGet sampleReplyResult "config_ok" (.vBool false)) = false ∧
      _prepare_set_reply_data (some [sampleReplyHeader]) sampleReplyParses [] =
        [("params", PyVal.vDict [("cfg_ac_out_open", PyVal.vInt 1)])] ∧
      [("params", PyVal.vDict [("cfg_ac_out_open", PyVal.vInt 1)])] ≠ ([] : PyDict) := by
  refine ⟨rfl, ?_, by simp⟩
  simp [_prepare_set_reply_data, sampleReplyHeader, sampleReplyParses, sampleReplyResult,
    flattenDict, flattenVal]

/-- Parse results where only the fallback `BMSHeartBeatReport` parse
succeeds, yielding a dict with a `cycles` key. -/
def sampleBmsParses : List Nat → ParseResults :=
  fun _ => { display := none, runtime := none, setCmd := none, setReply := none,
             cms := none, bms := some [("cycles", PyVal.vInt 10)],
             enumName := fun _ => none }

/-- A header whose `(cmd_func, cmd_id) = (100, 5)` matches none of the
recognized classifications. -/
def sampleUnknownHeader : RawHeader :=
  { src := 2, dest := 32, d_src := 1, d_dest := 1, enc_type := 0, check_type := 0,
    cmd_func := 100, cmd_id := 5, data_len := 1, need_ack := 0, seq := 7,
    product_id := 1, version := 19, payload_ver := 1, device_sn := "SN123",
    pdata := [0] }

/-- The `header_info` dict for `sampleUnknownHeader`. -/
def sampleUnknownHeaderInfo : HeaderInfo :=
  { src := 2, dest := 32, dSrc := 1, dDest := 1, encType := 0, checkType := 0,
    cmdFunc := 100, cmdId := 5, dataLen := 1, needAck := 0, seq := 7,
    productId := 1, version := 19, payloadVer := 1, headerObj := sampleUnknownHeader }

/-- C9 (amended): for a `(cmdFunc, cmdId)` pair outside every recognized
classification, `_decode_message_by_type` does not return empty
unconditionally: it attempts a fallback `BMSHeartBeatReport` decode of
the payload, keeps its result when that parse succeeds and carries a
`cycles`, `accu_chg_energy` or `accu_dsg_energy` key, and contributes the
empty mapping only otherwise. -/
theorem unrecognized_fallback (pdata : List Nat) (hinfo : HeaderInfo)
    (parses : List Nat → ParseResults)
    (h21 : ¬(hinfo.cmdFunc = 254 ∧ hinfo.cmdId = 21))
    (h22 : ¬(hinfo.cmdFunc = 254 ∧ hinfo.cmdId = 22))
    (h17 : ¬(hinfo.cmdFunc = 254 ∧ hinfo.cmdId = 17))
    (h18 : ¬(hinfo.cmdFunc = 254 ∧ hinfo.cmdId = 18))
    (h32 : ¬(hinfo.cmdFunc = 32 ∧ hinfo.cmdId = 2))
    (hbms : _is_bms_heartbeat hinfo.cmdFunc hinfo.cmdId = false) :
    _decode_message_by_type pdata hinfo parses =
      (match (parses pdata).bms with
       | some result =>
         if hasKey result "cycles" || hasKey result "accu_chg_energy" ||
             hasKey result "accu_dsg_energy" then result
         else []
       | none => []) := by
  simp only [_decode_message_by_type]
  rw [if_neg h21, if_neg h22, if_neg h17, if_neg h18, if_neg h32,
    if_neg (by simp [hbms])]

theorem unrecognized_fallback_witness :
    (¬(sampleUnknownHeaderInfo.cmdFunc = 254 ∧ sampleUnknownHeaderInfo.cmdId = 21) ∧
      _is_bms_heartbeat sampleUnknownHeaderInfo.cmdFunc sampleUnknownHeaderInfo.cmdId = false) ∧
    _decode_message_by_type [0] sampleUnknownHeaderInfo sampleBmsParses =
      (match (sampleBmsParses [0]).bms with
       | some result =>
         if hasKey result "cycles" || hasKey result "accu_chg_energy" ||
             hasKey result "accu_dsg_energy" then result
         else []
       | none => []) :=
  ⟨⟨by decide, by decide⟩,
    unrecognized_fallback [0] sampleUnknownHeaderInfo sampleBmsParses
      (by decide) (by decide) (by decide) (by decide) (by decide) (by decide)⟩

/-- C9 counterexample: at the unrecognized pair `(100, 5)`, a payload
whose fallback `BMSHeartBeatReport` parse yields a `cycles` entry makes
`_decode_message_by_type` contribute that non-empty mapping, so the
claimed "performs no decode and contributes an empty mapping" fails. -/
theorem unrecognized_contributes_counterexample :
    _is_bms_heartbeat 100 5 = false ∧
    (100 : Nat) ≠ 254 ∧ (100 : Nat) ≠ 32 ∧
    _decode_message_by_type [0] sampleUnknownHeaderInfo sampleBmsParses =
      [("cycles", PyVal.vInt 10)] ∧
    ([("cycles", PyVal.vInt 10)] : PyDict) ≠ [] := by
  refine ⟨by decide, by decide, by decide, ?_, by simp⟩
  rfl

/-- C10 (amended): `_prepare_data` applies no device-serial filter at all:
its result never depends on the expected serial, and it is unchanged when
the first sub-message's `device_sn` field is replaced by any other value
(only that first sub-message is processed). -/
theorem no_serial_filter (parsed : Option (List RawHeader)) (hdr : RawHeader)
    (rest : List RawHeader) (sn sn' expected expected' : String)
    (parses : List Nat → ParseResults) :
    _prepare_data parsed expected parses = _prepare_data parsed expected' parses ∧
    _prepare_data (some ({ hdr with device_sn := sn } :: rest)) expected parses =
      _prepare_data (some ({ hdr with device_sn := sn' } :: rest)) expected parses :=
  ⟨rfl, rfl⟩

/-- A header whose `device_sn` (`"FOREIGN"`) is present and differs from
the expected serial `"SN123"`, carrying a runtime-upload payload. -/
def foreignHeader : RawHeader :=
  { src := 2, dest := 32, d_src := 1, d_dest := 1, enc_type := 0, check_type := 0,
    cmd_func := 254, cmd_id := 22, data_len := 3, need_ack := 0, seq := 1000,
    product_id := 1, version := 19, payload_ver := 1, device_sn := "FOREIGN",
    pdata := [8, 100] }

/-- Parse results where the `RuntimePropertyUpload` parse succeeds with
one field. -/
def foreignParses : List Nat → ParseResults :=
  fun _ => { display := none, runtime := some [("pow_in_sum_w", PyVal.vInt 100)],
             setCmd := none, setReply := none, cms := none, bms := none,
             enumName := fun _ => none }

/-- C10 counterexample: a sub-message whose `device_sn` is set to
`"FOREIGN"` while the device's serial is `"SN123"` is decoded anyway and
contributes one key to the output mapping, so the claimed serial filter
does not exist in the code. -/
theorem foreign_serial_counterexample :
    foreignHeader.device_sn = "FOREIGN" ∧
    ("FOREIGN" : String) ≠ "" ∧
    ("FOREIGN" : String) ≠ "SN123" ∧
    _prepare_data (some [foreignHeader]) "SN123" foreignParses =
      PrepareResult.decoded [("pow_in_sum_w", PyVal.vInt 100)]
        [("pow_in_sum_w", PyVal.vInt 100)] := by
  refine ⟨rfl, by decide, by decide, ?_⟩
  simp [_prepare_data, _decode_header_message, _extract_payload_data, _perform_xor_decode,
    _decode_message_by_type, foreignHeader, foreignParses, flattenDict, flattenVal]
